import Mathlib

/-
Verification of the Astroport router swap-operation core
(contracts/router/src/operations.rs) against its design specification.

The two Rust functions `execute_swap_operation` and `asset_into_swap_msg`
are shallowly embedded below.  External collaborators (the config store,
the factory pair-registry query, the two balance queries and the tax
computation) are modelled as explicit records of `Except`-returning
functions, exactly mirroring the `StdResult` interfaces the Rust code
consumes.  Outbound messages are kept structural: the `to_binary`
serialization step is modelled as the identity on the structured payload,
so every field of the emitted instruction remains observable.
-/

namespace Astroport

/-- cosmwasm `Decimal`: a fixed-point number stored as `Uint128` atomics
with 18 fractional digits.  Only its identity matters here, so it is the
atomics value. -/
structure Decimal where
  atomics : Nat
deriving DecidableEq, Repr

/-- `Decimal::MAX`: the maximum representable `Decimal`, i.e. `Uint128::MAX`
atomics. -/
def Decimal.MAX : Decimal := ⟨2 ^ 128 - 1⟩

/-- `astroport::asset::AssetInfo`: a native denomination or a cw20 token
contract address. -/
inductive AssetInfo where
  | nativeToken (denom : String)
  | token (contractAddr : String)
deriving DecidableEq, Repr

/-- Whether an asset kind is native. -/
def AssetInfo.isNative : AssetInfo → Bool
  | .nativeToken _ => true
  | .token _ => false

/-- `astroport::asset::Asset`: an asset kind together with an amount.
Amounts are the non-negative integers carried by `Uint128`; subtraction on
them is the checked (failing, non-wrapping) one below. -/
structure Asset where
  info : AssetInfo
  amount : Nat
deriving DecidableEq, Repr

/-- `ap_router::SwapOperation`: one leg of a route. -/
inductive SwapOperation where
  | astroSwap (offerAssetInfo askAssetInfo : AssetInfo)
  | nativeSwap (offerDenom askDenom : String)
deriving DecidableEq, Repr

/-- `cosmwasm_std::Coin`. -/
structure Coin where
  denom : String
  amount : Nat
deriving DecidableEq, Repr

/-- `ap_pair::ExecuteMsg::Swap` payload. -/
structure SwapPayload where
  offerAsset : Asset
  askAssetInfo : Option AssetInfo
  beliefPrice : Option Decimal
  maxSpread : Option Decimal
  to' : Option String
deriving DecidableEq, Repr

/-- `ap_pair::Cw20HookMsg::Swap` payload embedded in a cw20 `Send`. -/
structure HookSwap where
  askAssetInfo : Option AssetInfo
  beliefPrice : Option Decimal
  maxSpread : Option Decimal
  to' : Option String
deriving DecidableEq, Repr

/-- `cw20::Cw20ExecuteMsg::Send` payload. -/
structure SendPayload where
  contract : String
  amount : Nat
  msg : HookSwap
deriving DecidableEq, Repr

/-- The structured form of the binary message attached to a
`WasmMsg::Execute` by this core: either a direct pair `Swap` or a cw20
`Send` carrying a `Swap` hook. -/
inductive WasmPayload where
  | pairSwap (p : SwapPayload)
  | cw20Send (p : SendPayload)
deriving DecidableEq, Repr

/-- `cosmwasm_std::WasmMsg::Execute`. -/
structure WasmExecute where
  contractAddr : String
  funds : List Coin
  msg : WasmPayload
deriving DecidableEq, Repr

/-- `cosmwasm_std::CosmosMsg` (only the `Wasm` variant is produced here). -/
inductive CosmosMsg where
  | wasm (w : WasmExecute)
deriving DecidableEq, Repr

/-- `cosmwasm_std::Response`: the list of outbound sub-messages. -/
structure Response where
  messages : List CosmosMsg
deriving DecidableEq, Repr

/-- `cosmwasm_std::StdError`, restricted to the shapes reachable here:
checked-subtraction overflow, a missing stored item, and any other
propagated query error. -/
inductive StdError where
  | overflow
  | notFound
  | genericErr
deriving DecidableEq, Repr

/-- `crate::error::ContractError` of the router contract. -/
inductive ContractError where
  | std (e : StdError)
  | unauthorized
  | nativeSwapNotSupported
deriving DecidableEq, Repr

/-- The router's config record; `execute_swap_operation` reads only the
factory address from it. -/
structure Config where
  astroportFactory : String
deriving DecidableEq, Repr

/-- `ap_pair::PairInfo`: the registry's answer for an asset pair. -/
structure PairInfo where
  assetInfos : List AssetInfo
  contractAddr : String
deriving DecidableEq, Repr

/-- `cosmwasm_std::Env`: the part used here, the contract's own address. -/
structure Env where
  contractAddress : String
deriving DecidableEq, Repr

/-- `cosmwasm_std::MessageInfo`: the part used here, the caller. -/
structure MessageInfo where
  sender : String
deriving DecidableEq, Repr

/-- The contract's storage, holding the optional `CONFIG` item. -/
structure Storage where
  config : Option Config
deriving DecidableEq, Repr

/-- `CONFIG.load(deps.storage)`: fails if the item was never stored. -/
def CONFIG_load (s : Storage) : Except StdError Config :=
  match s.config with
  | some c => .ok c
  | none => .error .notFound

/-- The external query interfaces consumed through `deps.querier`:
the factory pair lookup, the two balance queries, and the tax rule. -/
structure Querier where
  pairInfo : String → List AssetInfo → Except StdError PairInfo
  nativeBalance : String → String → Except StdError Nat
  tokenBalance : String → String → Except StdError Nat
  computeTax : Asset → Except StdError Nat

/-- `Uint128::checked_sub`: exact subtraction that fails (with an overflow
error) instead of wrapping on underflow. -/
def checkedSub (a b : Nat) : Except StdError Nat :=
  if b ≤ a then .ok (a - b) else .error .overflow

/-- Embedding of `asset_into_swap_msg` (operations.rs, lines 88-139).
Builds the single outbound `CosmosMsg` for one swap leg: for a native
offer it deducts tax and attaches the adjusted amount as funds on a
direct pair `Swap`; for a token offer it emits a cw20 `Send` of the full
amount towards the pair contract with a `Swap` hook. -/
def asset_into_swap_msg (q : Querier) (pairContract : String) (offerAsset : Asset)
    (askAssetInfo : AssetInfo) (maxSpread : Option Decimal) (to' : Option String)
    (single : Bool) : Except StdError CosmosMsg :=
  let beliefPrice : Option Decimal := if single then none else some Decimal.MAX
  match offerAsset.info with
  | .nativeToken denom =>
    match q.computeTax offerAsset with
    | .error e => .error e
    | .ok tax =>
      match checkedSub offerAsset.amount tax with
      | .error e => .error e
      | .ok amount =>
        .ok (.wasm {
          contractAddr := pairContract
          funds := [{ denom := denom, amount := amount }]
          msg := .pairSwap {
            offerAsset := { offerAsset with amount := amount }
            askAssetInfo := some askAssetInfo
            beliefPrice := beliefPrice
            maxSpread := maxSpread
            to' := to' } })
  | .token contractAddr =>
    .ok (.wasm {
      contractAddr := contractAddr
      funds := []
      msg := .cw20Send {
        contract := pairContract
        amount := offerAsset.amount
        msg := {
          askAssetInfo := some askAssetInfo
          beliefPrice := beliefPrice
          maxSpread := maxSpread
          to' := to' } } })

/-- Embedding of `execute_swap_operation` (operations.rs, lines 21-73).
Storage is threaded explicitly: the function returns the resulting
storage next to the `Result`, and — like the source, which only ever
loads `CONFIG` — never changes it. -/
def execute_swap_operation (q : Querier) (s : Storage) (env : Env)
    (info : MessageInfo) (operation : SwapOperation) (to' : Option String)
    (maxSpread : Option Decimal) (single : Bool) :
    Except ContractError Response × Storage :=
  if env.contractAddress ≠ info.sender then
    (.error .unauthorized, s)
  else
    match operation with
    | .astroSwap offerAssetInfo askAssetInfo =>
      let res : Except ContractError Response :=
        match CONFIG_load s with
        | .error e => .error (.std e)
        | .ok config =>
          match q.pairInfo config.astroportFactory [offerAssetInfo, askAssetInfo] with
          | .error e => .error (.std e)
          | .ok pairInfo =>
            match (match offerAssetInfo with
                   | .nativeToken denom => q.nativeBalance env.contractAddress denom
                   | .token contractAddr => q.tokenBalance contractAddr env.contractAddress) with
            | .error e => .error (.std e)
            | .ok amount =>
              match asset_into_swap_msg q pairInfo.contractAddr
                  { info := offerAssetInfo, amount := amount } askAssetInfo
                  maxSpread to' single with
              | .error e => .error (.std e)
              | .ok message => .ok { messages := [message] }
      (res, s)
    | .nativeSwap _ _ => (.error .nativeSwapNotSupported, s)

/-- The outbound instructions carried by a `Result`: none when it is an
error. -/
def resultMessages : Except ContractError Response → List CosmosMsg
  | .ok r => r.messages
  | .error _ => []

/-- The contract targeted by an outbound message. -/
def CosmosMsg.targetOf : CosmosMsg → String
  | .wasm w => w.contractAddr

/-- The native funds attached to an outbound message. -/
def CosmosMsg.fundsOf : CosmosMsg → List Coin
  | .wasm w => w.funds

/-- Whether the payload is a direct pair `Swap` (native-settlement shape). -/
def CosmosMsg.isPairSwap : CosmosMsg → Bool
  | .wasm w =>
    match w.msg with
    | .pairSwap _ => true
    | .cw20Send _ => false

/-- Whether the payload is a cw20 `Send` (token-settlement shape). -/
def CosmosMsg.isCw20Send : CosmosMsg → Bool
  | .wasm w =>
    match w.msg with
    | .pairSwap _ => false
    | .cw20Send _ => true

/-- The belief (reference) price carried by the message's `Swap` payload. -/
def CosmosMsg.beliefPriceOf : CosmosMsg → Option Decimal
  | .wasm w =>
    match w.msg with
    | .pairSwap p => p.beliefPrice
    | .cw20Send p => p.msg.beliefPrice

/-- The optional recipient carried by the message's `Swap` payload. -/
def CosmosMsg.recipientOf : CosmosMsg → Option String
  | .wasm w =>
    match w.msg with
    | .pairSwap p => p.to'
    | .cw20Send p => p.msg.to'

/-- The offered amount carried by the message: the `Swap` payload's offer
amount for the native shape, the `Send` amount for the token shape. -/
def CosmosMsg.offerAmount : CosmosMsg → Nat
  | .wasm w =>
    match w.msg with
    | .pairSwap p => p.offerAsset.amount
    | .cw20Send p => p.amount

/-- Modelled from the spec: the pair protocol's resolution of the optional
recipient, "recipient address (optional — defaults to the caller)".  The
pair contract performing this resolution is outside the excerpt; only its
defaulting rule is needed here. -/
def resolveRecipient (to' : Option String) (caller : String) : String :=
  to'.getD caller

/-! Sample external environment used to exercise the theorems on concrete
inputs. -/

/-- A concrete querier: the registry answers `pair0`, the contract holds
1000 of any native denomination and 500 of any token, and tax is a flat 5. -/
def sampleQ : Querier where
  pairInfo := fun _ _ => .ok { assetInfos := [], contractAddr := "pair0" }
  nativeBalance := fun _ _ => .ok 1000
  tokenBalance := fun _ _ => .ok 500
  computeTax := fun _ => .ok 5

/-- A concrete storage holding a config. -/
def sampleS : Storage := { config := some { astroportFactory := "factory0" } }

/-- A concrete environment: the contract's own address. -/
def sampleEnv : Env := { contractAddress := "router0" }

/-- A concrete caller equal to the contract itself (the authorized case). -/
def sampleInfo : MessageInfo := { sender := "router0" }

/-! Unfolding equations for the two branches of the builder, and an
inversion principle for the executor.  These are the shared workhorses of
the claim proofs below. -/

/-- One-step unfolding of `asset_into_swap_msg` on a native offer. -/
theorem asset_into_swap_msg_native_eq (q : Querier) (pairContract denom : String)
    (A : Nat) (askAssetInfo : AssetInfo) (maxSpread : Option Decimal)
    (to' : Option String) (single : Bool) :
    asset_into_swap_msg q pairContract { info := .nativeToken denom, amount := A }
        askAssetInfo maxSpread to' single
      = match q.computeTax { info := .nativeToken denom, amount := A } with
        | .error e => .error e
        | .ok tax =>
          match checkedSub A tax with
          | .error e => .error e
          | .ok amount =>
            .ok (.wasm {
              contractAddr := pairContract
              funds := [{ denom := denom, amount := amount }]
              msg := .pairSwap {
                offerAsset := { info := .nativeToken denom, amount := amount }
                askAssetInfo := some askAssetInfo
                beliefPrice := if single then none else some Decimal.MAX
                maxSpread := maxSpread
                to' := to' } }) := rfl

/-- One-step unfolding of `asset_into_swap_msg` on a token offer. -/
theorem asset_into_swap_msg_token_eq (q : Querier) (pairContract c : String)
    (A : Nat) (askAssetInfo : AssetInfo) (maxSpread : Option Decimal)
    (to' : Option String) (single : Bool) :
    asset_into_swap_msg q pairContract { info := .token c, amount := A }
        askAssetInfo maxSpread to' single
      = .ok (.wasm {
          contractAddr := c
          funds := []
          msg := .cw20Send {
            contract := pairContract
            amount := A
            msg := {
              askAssetInfo := some askAssetInfo
              beliefPrice := if single then none else some Decimal.MAX
              maxSpread := maxSpread
              to' := to' } } }) := rfl

/-- Whenever the builder succeeds, the emitted message carries the belief
price dictated by `single` and forwards the recipient unchanged. -/
theorem asset_into_swap_msg_ok_fields (q : Querier) (pairContract : String)
    (offerAsset : Asset) (askAssetInfo : AssetInfo) (maxSpread : Option Decimal)
    (to' : Option String) (single : Bool) (m : CosmosMsg)
    (h : asset_into_swap_msg q pairContract offerAsset askAssetInfo maxSpread to' single
          = .ok m) :
    m.beliefPriceOf = (if single then none else some Decimal.MAX) ∧
    m.recipientOf = to' := by
  obtain ⟨i, A⟩ := offerAsset
  cases i with
  | nativeToken denom =>
    rw [asset_into_swap_msg_native_eq] at h
    split at h
    · exact absurd h (by simp)
    · split at h
      · exact absurd h (by simp)
      · injection h with h
        subst h
        exact ⟨rfl, rfl⟩
  | token c =>
    rw [asset_into_swap_msg_token_eq] at h
    injection h with h
    subst h
    exact ⟨rfl, rfl⟩

/-- Inversion for a successful `AstroSwap` execution: every query succeeded,
the offer amount is the queried balance, and the response wraps exactly the
builder's message. -/
theorem execute_astro_ok_inv (q : Querier) (s : Storage) (env : Env)
    (info : MessageInfo) (offerAssetInfo askAssetInfo : AssetInfo)
    (to' : Option String) (maxSpread : Option Decimal) (single : Bool)
    (r : Response)
    (h : (execute_swap_operation q s env info
            (.astroSwap offerAssetInfo askAssetInfo) to' maxSpread single).1
          = .ok r) :
    ∃ config pairInfo amount m,
      CONFIG_load s = .ok config ∧
      q.pairInfo config.astroportFactory [offerAssetInfo, askAssetInfo] = .ok pairInfo ∧
      (match offerAssetInfo with
       | .nativeToken denom => q.nativeBalance env.contractAddress denom
       | .token contractAddr => q.tokenBalance contractAddr env.contractAddress)
        = .ok amount ∧
      asset_into_swap_msg q pairInfo.contractAddr
          { info := offerAssetInfo, amount := amount } askAssetInfo maxSpread to' single
        = .ok m ∧
      r = { messages := [m] } := by
  unfold execute_swap_operation at h
  by_cases hauth : env.contractAddress ≠ info.sender
  · rw [if_pos hauth] at h
    exact absurd h (by simp)
  · rw [if_neg hauth] at h
    split at h
    · rename_i a1 a2 heq
      injection heq with e1 e2
      subst e1
      subst e2
      split at h
      · exact absurd h (by simp)
      · rename_i config hconfig
        split at h
        · exact absurd h (by simp)
        · rename_i pinfo hpinfo
          split at h
          · exact absurd h (by simp)
          · rename_i amount hamount
            split at h
            · exact absurd h (by simp)
            · rename_i message hmessage
              injection h with h
              subst h
              exact ⟨config, pinfo, amount, message,
                hconfig, hpinfo, hamount, hmessage, rfl⟩
    · exact absurd h (by simp)

/-- Reduction of the builder on a native offer whose tax is known. -/
theorem asset_into_swap_msg_native_tax_eq (q : Querier) (pairContract denom : String)
    (A T : Nat) (askAssetInfo : AssetInfo) (maxSpread : Option Decimal)
    (to' : Option String) (single : Bool)
    (htax : q.computeTax { info := .nativeToken denom, amount := A } = .ok T) :
    asset_into_swap_msg q pairContract { info := .nativeToken denom, amount := A }
        askAssetInfo maxSpread to' single
      = match checkedSub A T with
        | .error e => .error e
        | .ok amount =>
          .ok (.wasm {
            contractAddr := pairContract
            funds := [{ denom := denom, amount := amount }]
            msg := .pairSwap {
              offerAsset := { info := .nativeToken denom, amount := amount }
              askAssetInfo := some askAssetInfo
              beliefPrice := if single then none else some Decimal.MAX
              maxSpread := maxSpread
              to' := to' } }) := by
  rw [asset_into_swap_msg_native_eq, htax]

/-- Concrete message: cw20 `Send` of 500 tokA towards pair0 with a `Swap`
hook, for a single-leg route (belief price absent). -/
def sampleSendMsgSingle : CosmosMsg :=
  .wasm {
    contractAddr := "tokA"
    funds := []
    msg := .cw20Send {
      contract := "pair0"
      amount := 500
      msg := {
        askAssetInfo := some (.nativeToken "uluna")
        beliefPrice := none
        maxSpread := none
        to' := none } } }

/-- Concrete message: the same `Send` but as a multi-hop leg (belief price
pinned at `Decimal.MAX`). -/
def sampleSendMsgMulti : CosmosMsg :=
  .wasm {
    contractAddr := "tokA"
    funds := []
    msg := .cw20Send {
      contract := "pair0"
      amount := 500
      msg := {
        askAssetInfo := some (.nativeToken "uluna")
        beliefPrice := some Decimal.MAX
        maxSpread := none
        to' := none } } }

/-! The claims. -/

/-- C1: for every operation and every choice of recipient, max spread and
single, if the caller's address differs from the contract's own address,
`execute_swap_operation` fails with `Unauthorized` and produces zero
outbound instructions. -/
theorem claim_c1_unauthorized (q : Querier) (s : Storage) (env : Env)
    (info : MessageInfo) (operation : SwapOperation) (to' : Option String)
    (maxSpread : Option Decimal) (single : Bool)
    (h : env.contractAddress ≠ info.sender) :
    (execute_swap_operation q s env info operation to' maxSpread single).1
      = .error .unauthorized ∧
    resultMessages
      (execute_swap_operation q s env info operation to' maxSpread single).1 = [] := by
  unfold execute_swap_operation
  rw [if_pos h]
  exact ⟨rfl, rfl⟩

/-- C1 witness: a concrete foreign caller is rejected with `Unauthorized`
and no instruction. -/
theorem claim_c1_unauthorized_witness :
    (({ contractAddress := "router0" } : Env).contractAddress
        ≠ ({ sender := "mallory" } : MessageInfo).sender) ∧
    ((execute_swap_operation sampleQ sampleS { contractAddress := "router0" }
        { sender := "mallory" } (.astroSwap (.nativeToken "uusd") (.token "tokA"))
        none none true).1 = .error .unauthorized ∧
     resultMessages
       (execute_swap_operation sampleQ sampleS { contractAddress := "router0" }
         { sender := "mallory" } (.astroSwap (.nativeToken "uusd") (.token "tokA"))
         none none true).1 = []) :=
  ⟨by decide, claim_c1_unauthorized sampleQ sampleS { contractAddress := "router0" }
    { sender := "mallory" } (.astroSwap (.nativeToken "uusd") (.token "tokA"))
    none none true (by decide)⟩

/-- C2: whenever `asset_into_swap_msg` builds an instruction, the
instruction's belief (reference) price is `Decimal.MAX` when `single` is
false and absent when `single` is true. -/
theorem claim_c2_belief_price (q : Querier) (pairContract : String)
    (offerAsset : Asset) (askAssetInfo : AssetInfo) (maxSpread : Option Decimal)
    (to' : Option String) (single : Bool) (m : CosmosMsg)
    (h : asset_into_swap_msg q pairContract offerAsset askAssetInfo maxSpread to' single
          = .ok m) :
    m.beliefPriceOf = if single then none else some Decimal.MAX :=
  (asset_into_swap_msg_ok_fields q pairContract offerAsset askAssetInfo maxSpread
    to' single m h).1

/-- C2 witness: a concrete multi-hop (single = false) token leg carries
belief price `Decimal.MAX`. -/
theorem claim_c2_belief_price_witness :
    (asset_into_swap_msg sampleQ "pair0" { info := .token "tokA", amount := 500 }
        (.nativeToken "uluna") none none false = .ok sampleSendMsgMulti) ∧
    sampleSendMsgMulti.beliefPriceOf = (if false then none else some Decimal.MAX) :=
  ⟨rfl, claim_c2_belief_price sampleQ "pair0" { info := .token "tokA", amount := 500 }
    (.nativeToken "uluna") none none false sampleSendMsgMulti rfl⟩

/-- C3: for a native offer with amount `A` and computed tax `T`: if
`T ≤ A`, the built instruction attaches exactly `A - T` of the
denomination as funds; if `T > A`, the builder fails with the
checked-subtraction underflow error and no instruction is produced. -/
theorem claim_c3_tax_adjustment (q : Querier) (pairContract denom : String)
    (A T : Nat) (askAssetInfo : AssetInfo) (maxSpread : Option Decimal)
    (to' : Option String) (single : Bool)
    (htax : q.computeTax { info := .nativeToken denom, amount := A } = .ok T) :
    (T ≤ A → ∃ m, asset_into_swap_msg q pairContract
        { info := .nativeToken denom, amount := A } askAssetInfo maxSpread to' single
          = .ok m ∧ m.fundsOf = [{ denom := denom, amount := A - T }]) ∧
    (A < T → asset_into_swap_msg q pairContract
        { info := .nativeToken denom, amount := A } askAssetInfo maxSpread to' single
          = .error .overflow) := by
  rw [asset_into_swap_msg_native_tax_eq q pairContract denom A T askAssetInfo maxSpread
    to' single htax]
  unfold checkedSub
  constructor
  · intro hle
    rw [if_pos hle]
    exact ⟨_, rfl, rfl⟩
  · intro hlt
    rw [if_neg (by omega)]

/-- C3 witness: balance 1000, tax 5 yields attached funds of exactly 995. -/
theorem claim_c3_tax_adjustment_witness :
    (sampleQ.computeTax { info := .nativeToken "uusd", amount := 1000 } = .ok 5) ∧
    (5 ≤ 1000) ∧
    (∃ m, asset_into_swap_msg sampleQ "pair0" { info := .nativeToken "uusd", amount := 1000 }
        (.token "tokA") none none false = .ok m ∧
        m.fundsOf = [{ denom := "uusd", amount := 1000 - 5 }]) :=
  ⟨rfl, by omega,
    (claim_c3_tax_adjustment sampleQ "pair0" "uusd" 1000 5 (.token "tokA")
      none none false rfl).1 (by omega)⟩

/-- C5: a token offer of amount `A` yields a cw20 `Send` of exactly `A`
(no tax consulted — the querier's tax rule is arbitrary) with zero
attached native funds. -/
theorem claim_c5_token_exemption (q : Querier) (pairContract c : String) (A : Nat)
    (askAssetInfo : AssetInfo) (maxSpread : Option Decimal) (to' : Option String)
    (single : Bool) :
    asset_into_swap_msg q pairContract { info := .token c, amount := A }
        askAssetInfo maxSpread to' single
      = .ok (.wasm {
          contractAddr := c
          funds := []
          msg := .cw20Send {
            contract := pairContract
            amount := A
            msg := {
              askAssetInfo := some askAssetInfo
              beliefPrice := if single then none else some Decimal.MAX
              maxSpread := maxSpread
              to' := to' } } }) := rfl

/-- C6: a native offer always yields the native-settlement shape (a wasm
execute on the pair contract with a direct `Swap` payload) and a token
offer always yields the token-settlement shape (a wasm execute on the
token contract with a `Send` payload carrying zero funds); never the
other. -/
theorem claim_c6_kind_routing (q : Querier) (pairContract : String)
    (offerAsset : Asset) (askAssetInfo : AssetInfo) (maxSpread : Option Decimal)
    (to' : Option String) (single : Bool) (m : CosmosMsg)
    (h : asset_into_swap_msg q pairContract offerAsset askAssetInfo maxSpread to' single
          = .ok m) :
    (∀ denom, offerAsset.info = .nativeToken denom →
      m.targetOf = pairContract ∧ m.isPairSwap = true ∧ m.isCw20Send = false) ∧
    (∀ c, offerAsset.info = .token c →
      m.targetOf = c ∧ m.fundsOf = [] ∧ m.isCw20Send = true ∧ m.isPairSwap = false) := by
  obtain ⟨i, A⟩ := offerAsset
  cases i with
  | nativeToken denom =>
    rw [asset_into_swap_msg_native_eq] at h
    split at h
    · exact absurd h (by simp)
    · split at h
      · exact absurd h (by simp)
      · injection h with h
        subst h
        constructor
        · intro d hd
          exact ⟨rfl, rfl, rfl⟩
        · intro c hc
          exact absurd hc (by simp)
  | token c =>
    rw [asset_into_swap_msg_token_eq] at h
    injection h with h
    subst h
    constructor
    · intro d hd
      exact absurd hd (by simp)
    · intro c2 hc
      injection hc with hc
      subst hc
      exact ⟨rfl, rfl, rfl, rfl⟩

/-- C6 witness: a concrete token offer produces the token-settlement shape
and not the native one. -/
theorem claim_c6_kind_routing_witness :
    (asset_into_swap_msg sampleQ "pair0" { info := .token "tokA", amount := 500 }
        (.nativeToken "uluna") none none true = .ok sampleSendMsgSingle) ∧
    (sampleSendMsgSingle.targetOf = "tokA" ∧ sampleSendMsgSingle.fundsOf = [] ∧
     sampleSendMsgSingle.isCw20Send = true ∧ sampleSendMsgSingle.isPairSwap = false) :=
  ⟨rfl, (claim_c6_kind_routing sampleQ "pair0" { info := .token "tokA", amount := 500 }
    (.nativeToken "uluna") none none true sampleSendMsgSingle rfl).2 "tokA" rfl⟩

/-- C7: with an authorized caller, a `NativeSwap` operation always fails
with `NativeSwapNotSupported` — for every recipient, max spread and
single — and produces no instruction. -/
theorem claim_c7_native_swap_rejected (q : Querier) (s : Storage) (env : Env)
    (info : MessageInfo) (offerDenom askDenom : String) (to' : Option String)
    (maxSpread : Option Decimal) (single : Bool)
    (hauth : env.contractAddress = info.sender) :
    (execute_swap_operation q s env info (.nativeSwap offerDenom askDenom)
        to' maxSpread single).1 = .error .nativeSwapNotSupported ∧
    resultMessages (execute_swap_operation q s env info
        (.nativeSwap offerDenom askDenom) to' maxSpread single).1 = [] := by
  unfold execute_swap_operation
  rw [if_neg (not_not_intro hauth)]
  exact ⟨rfl, rfl⟩

/-- C7 witness: a concrete authorized `NativeSwap` request is rejected. -/
theorem claim_c7_native_swap_rejected_witness :
    (sampleEnv.contractAddress = sampleInfo.sender) ∧
    ((execute_swap_operation sampleQ sampleS sampleEnv sampleInfo
        (.nativeSwap "uusd" "uluna") none none true).1
        = .error .nativeSwapNotSupported ∧
     resultMessages (execute_swap_operation sampleQ sampleS sampleEnv sampleInfo
        (.nativeSwap "uusd" "uluna") none none true).1 = []) :=
  ⟨rfl, claim_c7_native_swap_rejected sampleQ sampleS sampleEnv sampleInfo
    "uusd" "uluna" none none true rfl⟩

/-- C10: on the native path with tax `T ≤ A`, the emitted instruction keeps
the offer asset's kind, replaces only its amount by the tax-adjusted
`A - T` — equal to the attached-funds amount — and forwards ask asset,
belief price, max spread and recipient unchanged. -/
theorem claim_c10_native_frame (q : Querier) (pairContract denom : String)
    (A T : Nat) (askAssetInfo : AssetInfo) (maxSpread : Option Decimal)
    (to' : Option String) (single : Bool)
    (htax : q.computeTax { info := .nativeToken denom, amount := A } = .ok T)
    (hle : T ≤ A) :
    asset_into_swap_msg q pairContract { info := .nativeToken denom, amount := A }
        askAssetInfo maxSpread to' single
      = .ok (.wasm {
          contractAddr := pairContract
          funds := [{ denom := denom, amount := A - T }]
          msg := .pairSwap {
            offerAsset := { info := .nativeToken denom, amount := A - T }
            askAssetInfo := some askAssetInfo
            beliefPrice := if single then none else some Decimal.MAX
            maxSpread := maxSpread
            to' := to' } }) := by
  rw [asset_into_swap_msg_native_tax_eq q pairContract denom A T askAssetInfo maxSpread
    to' single htax]
  unfold checkedSub
  rw [if_pos hle]

/-- C10 witness: balance 1000, tax 5 gives the fully explicit native
instruction with amount 995 in both funds and payload. -/
theorem claim_c10_native_frame_witness :
    (sampleQ.computeTax { info := .nativeToken "uusd", amount := 1000 } = .ok 5) ∧
    (5 ≤ 1000) ∧
    asset_into_swap_msg sampleQ "pair0" { info := .nativeToken "uusd", amount := 1000 }
        (.token "tokA") none none false
      = .ok (.wasm {
          contractAddr := "pair0"
          funds := [{ denom := "uusd", amount := 995 }]
          msg := .pairSwap {
            offerAsset := { info := .nativeToken "uusd", amount := 995 }
            askAssetInfo := some (.token "tokA")
            beliefPrice := some Decimal.MAX
            maxSpread := none
            to' := none } }) :=
  ⟨rfl, by omega, claim_c10_native_frame sampleQ "pair0" "uusd" 1000 5 (.token "tokA")
    none none false rfl (by omega)⟩

/-- Concrete message: the native instruction produced from balance 1000 and
tax 5 on a single leg (belief price absent). -/
def sampleNativeMsgSingle : CosmosMsg :=
  .wasm {
    contractAddr := "pair0"
    funds := [{ denom := "uusd", amount := 995 }]
    msg := .pairSwap {
      offerAsset := { info := .nativeToken "uusd", amount := 995 }
      askAssetInfo := some (.token "tokA")
      beliefPrice := none
      maxSpread := none
      to' := none } }

/-- C4 counterexample: with live native balance 1000 and tax 5, the amount
placed in the built instruction is 995, not the queried balance 1000 — the
claim's equality fails on the native path. -/
theorem claim_c4_counterexample :
    ((execute_swap_operation sampleQ sampleS sampleEnv sampleInfo
        (.astroSwap (.nativeToken "uusd") (.token "tokA")) none none true).1
      = .ok { messages := [sampleNativeMsgSingle] }) ∧
    sampleNativeMsgSingle.offerAmount = 995 ∧
    sampleQ.nativeBalance sampleEnv.contractAddress "uusd" = .ok 1000 ∧
    sampleNativeMsgSingle.offerAmount ≠ 1000 :=
  ⟨rfl, rfl, rfl, by decide⟩

/-- C4 (amended): for a successful `AstroSwap` leg, the amount in the built
instruction derives from the contract's own live balance query — it equals
the token-balance result exactly for a token offer, and the native-balance
result minus the computed tax for a native offer; the interface carries no
caller-supplied amount at all. -/
theorem claim_c4_offer_amount (q : Querier) (s : Storage) (env : Env)
    (info : MessageInfo) (offerAssetInfo askAssetInfo : AssetInfo)
    (to' : Option String) (maxSpread : Option Decimal) (single : Bool)
    (r : Response) (m : CosmosMsg)
    (hr : (execute_swap_operation q s env info
            (.astroSwap offerAssetInfo askAssetInfo) to' maxSpread single).1 = .ok r)
    (hm : r.messages = [m]) :
    (∀ c B, offerAssetInfo = .token c →
      q.tokenBalance c env.contractAddress = .ok B → m.offerAmount = B) ∧
    (∀ d B T, offerAssetInfo = .nativeToken d →
      q.nativeBalance env.contractAddress d = .ok B →
      q.computeTax { info := .nativeToken d, amount := B } = .ok T →
      m.offerAmount = B - T) := by
  obtain ⟨config, pinfo, amount, m0, hconfig, hpinfo, hbal, hmsg, hr0⟩ :=
    execute_astro_ok_inv q s env info offerAssetInfo askAssetInfo to' maxSpread single r hr
  subst hr0
  have hm2 : [m0] = [m] := hm
  injection hm2 with e _
  subst e
  constructor
  · intro c B hc hB
    subst hc
    have h2 : q.tokenBalance c env.contractAddress = .ok amount := hbal
    rw [hB] at h2
    injection h2 with e2
    subst e2
    rw [asset_into_swap_msg_token_eq] at hmsg
    injection hmsg with e3
    subst e3
    rfl
  · intro d B T hd hB htax
    subst hd
    have h2 : q.nativeBalance env.contractAddress d = .ok amount := hbal
    rw [hB] at h2
    injection h2 with e2
    subst e2
    rw [asset_into_swap_msg_native_tax_eq q pinfo.contractAddr d B T askAssetInfo
      maxSpread to' single htax] at hmsg
    unfold checkedSub at hmsg
    split at hmsg
    · exact Except.noConfusion hmsg
    · rename_i amt hsub
      injection hmsg with e3
      subst e3
      split at hsub
      · injection hsub with e4
        subst e4
        rfl
      · exact Except.noConfusion hsub

/-- C4 witness (amended claim): a concrete token leg offers exactly the
queried token balance of 500. -/
theorem claim_c4_offer_amount_witness :
    ((execute_swap_operation sampleQ sampleS sampleEnv sampleInfo
        (.astroSwap (.token "tokA") (.nativeToken "uluna")) none none true).1
      = .ok { messages := [sampleSendMsgSingle] }) ∧
    ({ messages := [sampleSendMsgSingle] } : Response).messages = [sampleSendMsgSingle] ∧
    sampleQ.tokenBalance "tokA" sampleEnv.contractAddress = .ok 500 ∧
    sampleSendMsgSingle.offerAmount = 500 :=
  ⟨rfl, rfl, rfl,
    (claim_c4_offer_amount sampleQ sampleS sampleEnv sampleInfo (.token "tokA")
      (.nativeToken "uluna") none none true { messages := [sampleSendMsgSingle] }
      sampleSendMsgSingle rfl rfl).1 "tokA" 500 rfl rfl⟩

/-- C8: when no recipient is supplied, the emitted instruction forwards an
absent recipient, and — per the spec's default-resolution rule for the
pair protocol, modelled by `resolveRecipient` — that recipient resolves to
the caller's address. -/
theorem claim_c8_recipient_default (q : Querier) (s : Storage) (env : Env)
    (info : MessageInfo) (operation : SwapOperation) (maxSpread : Option Decimal)
    (single : Bool) (r : Response) (m : CosmosMsg)
    (hr : (execute_swap_operation q s env info operation none maxSpread single).1 = .ok r)
    (hm : r.messages = [m]) :
    m.recipientOf = none ∧
    resolveRecipient m.recipientOf info.sender = info.sender := by
  cases operation with
  | astroSwap offerAssetInfo askAssetInfo =>
    obtain ⟨config, pinfo, amount, m0, hconfig, hpinfo, hbal, hmsg, hr0⟩ :=
      execute_astro_ok_inv q s env info offerAssetInfo askAssetInfo none maxSpread single r hr
    subst hr0
    have hm2 : [m0] = [m] := hm
    injection hm2 with e _
    subst e
    have hf := (asset_into_swap_msg_ok_fields q pinfo.contractAddr
      { info := offerAssetInfo, amount := amount } askAssetInfo maxSpread none single m0 hmsg).2
    refine ⟨hf, ?_⟩
    rw [hf]
    rfl
  | nativeSwap od ad =>
    unfold execute_swap_operation at hr
    by_cases hauth : env.contractAddress ≠ info.sender
    · rw [if_pos hauth] at hr
      exact Except.noConfusion hr
    · rw [if_neg hauth] at hr
      exact Except.noConfusion hr

/-- C8 witness: a concrete leg called without a recipient emits an absent
recipient that resolves to the caller. -/
theorem claim_c8_recipient_default_witness :
    ((execute_swap_operation sampleQ sampleS sampleEnv sampleInfo
        (.astroSwap (.token "tokA") (.nativeToken "uluna")) none none true).1
      = .ok { messages := [sampleSendMsgSingle] }) ∧
    ({ messages := [sampleSendMsgSingle] } : Response).messages = [sampleSendMsgSingle] ∧
    (sampleSendMsgSingle.recipientOf = none ∧
     resolveRecipient sampleSendMsgSingle.recipientOf sampleInfo.sender
       = sampleInfo.sender) :=
  ⟨rfl, rfl, claim_c8_recipient_default sampleQ sampleS sampleEnv sampleInfo
    (.astroSwap (.token "tokA") (.nativeToken "uluna")) none true
    { messages := [sampleSendMsgSingle] } sampleSendMsgSingle rfl rfl⟩

/-- C9: every invocation of `execute_swap_operation` leaves the storage
unchanged, and every successful one returns exactly one outbound
instruction (a failing one, being an error value, carries none). -/
theorem claim_c9_atomic (q : Querier) (s : Storage) (env : Env) (info : MessageInfo)
    (operation : SwapOperation) (to' : Option String) (maxSpread : Option Decimal)
    (single : Bool) :
    (execute_swap_operation q s env info operation to' maxSpread single).2 = s ∧
    ∀ r, (execute_swap_operation q s env info operation to' maxSpread single).1 = .ok r →
      r.messages.length = 1 := by
  constructor
  · unfold execute_swap_operation
    split
    · rfl
    · split <;> rfl
  · intro r hr
    cases operation with
    | astroSwap a b =>
      obtain ⟨config, pinfo, amount, m0, hconfig, hpinfo, hbal, hmsg, hr0⟩ :=
        execute_astro_ok_inv q s env info a b to' maxSpread single r hr
      subst hr0
      rfl
    | nativeSwap od ad =>
      unfold execute_swap_operation at hr
      by_cases hauth : env.contractAddress ≠ info.sender
      · rw [if_pos hauth] at hr
        exact Except.noConfusion hr
      · rw [if_neg hauth] at hr
        exact Except.noConfusion hr

/-- C9 witness: a concrete successful leg keeps the storage and returns one
instruction. -/
theorem claim_c9_atomic_witness :
    ((execute_swap_operation sampleQ sampleS sampleEnv sampleInfo
        (.astroSwap (.token "tokA") (.nativeToken "uluna")) none none true).2
      = sampleS) ∧
    ((execute_swap_operation sampleQ sampleS sampleEnv sampleInfo
        (.astroSwap (.token "tokA") (.nativeToken "uluna")) none none true).1
      = .ok { messages := [sampleSendMsgSingle] }) ∧
    ({ messages := [sampleSendMsgSingle] } : Response).messages.length = 1 :=
  ⟨(claim_c9_atomic sampleQ sampleS sampleEnv sampleInfo
      (.astroSwap (.token "tokA") (.nativeToken "uluna")) none none true).1,
   rfl,
   (claim_c9_atomic sampleQ sampleS sampleEnv sampleInfo
      (.astroSwap (.token "tokA") (.nativeToken "uluna")) none none true).2
     { messages := [sampleSendMsgSingle] } rfl⟩

end Astroport
